import Mathlib

/-!
Verification development for the degree-audit-advisor repository.

The definitions below are a shallow embedding of `src/advisor_engine.py`:
pure Python string/list manipulation becomes Lean functions over `String`
and `List`, the fallible collaborators (vector store, chat model) become
functions returning `Except String _` (the error payload models `str(e)`),
and the single `try/except` of `get_advisor_response` becomes a `match` on
the `Except` value.  Unicode-specific behaviour of Python's `str.upper`,
`\s` and `\d` is modelled on the ASCII range, which is the range every
course identifier and every claim exercises.
-/

/-- Model of Python `str.upper()` (ASCII range, which covers course codes). -/
def pyUpper (s : String) : String :=
  String.mk (s.data.map Char.toUpper)

/-- Characters matched by Python's regex class `\s` (ASCII range). -/
def pyIsSpace (c : Char) : Bool :=
  c = ' ' || c = '\t' || c = '\n' || c = '\r' || c = '\x0b' || c = '\x0c'

/-- Model of Python `s.replace(" ", "")`: delete every space character. -/
def removeSpaces (s : String) : String :=
  String.mk (s.data.filter (fun c => c ≠ ' '))

/-- `needle` occurs as a contiguous run inside `hay` (Python `needle in hay`). -/
def listIsInfix (needle : List Char) : List Char → Bool
  | [] => needle.isEmpty
  | c :: cs => needle.isPrefixOf (c :: cs) || listIsInfix needle cs

/-- Model of Python's substring test `needle in hay`. -/
def strContains (hay needle : String) : Bool :=
  listIsInfix needle.data hay.data

/-!
Model of `re.findall(r'(DEPT1|DEPT2|...)\s*(\d{3})', text)`.

The scan walks the character list left to right.  At each position the
alternation of department prefixes is tried (the prefixes are pairwise
distinct four-letter words, so at most one alternative can match at a given
position); on a prefix match the maximal run of whitespace is consumed
(`\s*` is greedy, and backtracking it can never help because a shorter run
leaves a whitespace character where a digit is required) and then exactly
three digits are required.  On success the match is recorded and scanning
resumes after the digits (matches are non-overlapping); on failure scanning
resumes one character further.  The recursion is fuelled by the length of
the input, which bounds the number of scan steps.
-/

/-- Strip a literal pattern from the front of the input, if present. -/
def stripPatChars : List Char → List Char → Option (List Char)
  | [], cs => some cs
  | _ :: _, [] => none
  | p :: ps, c :: cs => if c = p then stripPatChars ps cs else none

/-- Try each department alternative, in the pattern's order. -/
def tryDept : List String → List Char → Option (String × List Char)
  | [], _ => none
  | d :: ds, cs =>
    match stripPatChars d.data cs with
    | some rest => some (d, rest)
    | none => tryDept ds cs

/-- Consume the maximal run of `\s` characters. -/
def skipSpaces : List Char → List Char
  | [] => []
  | c :: cs => if pyIsSpace c then skipSpaces cs else c :: cs

/-- Require exactly three consecutive ASCII digits (`\d{3}`). -/
def matchDigits3 : List Char → Option (String × List Char)
  | c1 :: c2 :: c3 :: rest =>
    if c1.isDigit && c2.isDigit && c3.isDigit then
      some (String.mk [c1, c2, c3], rest)
    else none
  | _ => none

/-- One attempt of the whole pattern at the current position. -/
def tryMatchAt (depts : List String) (cs : List Char) :
    Option (String × String × List Char) :=
  match tryDept depts cs with
  | none => none
  | some (d, rest) =>
    match matchDigits3 (skipSpaces rest) with
    | none => none
    | some (num, rest2) => some (d, num, rest2)

/-- The fuelled scan; fuel is initialised to the input length, and every
step either consumes at least one character or ends the scan. -/
def reFindAllAux (depts : List String) : Nat → List Char → List (String × String)
  | 0, _ => []
  | _ + 1, [] => []
  | fuel + 1, c :: cs =>
    match tryMatchAt depts (c :: cs) with
    | some (d, num, rest) => (d, num) :: reFindAllAux depts fuel rest
    | none => reFindAllAux depts fuel cs

/-- `re.findall` for the course-code pattern: list of (department, digits). -/
def reFindAll (depts : List String) (cs : List Char) : List (String × String) :=
  reFindAllAux depts cs.length cs

/-- The alternation used in `get_advisor_response` (line 381) — no UNIV. -/
def advisorDepts : List String :=
  ["MATH", "CISC", "ENGL", "PHYS", "CHEM", "BISC", "GEOL"]

/-- The alternation used in `parse_completed_courses` (line 476) — with UNIV. -/
def transcriptDepts : List String :=
  ["MATH", "CISC", "ENGL", "PHYS", "CHEM", "BISC", "GEOL", "UNIV"]

/-- The `seen`-set deduplication idiom used twice in the source: keep the
first occurrence of each key, preserve order.  `seen` is the set of keys
already emitted (a list, queried by membership). -/
def dedupFirstBy {α : Type} (key : α → String) : List String → List α → List α
  | _, [] => []
  | seen, x :: xs =>
    if key x ∈ seen then dedupFirstBy key seen xs
    else x :: dedupFirstBy key (key x :: seen) xs

/-- The `seen` set accumulated by a run of `dedupFirstBy` over `l`. -/
def dedupSeenAfter {α : Type} (key : α → String) : List String → List α → List String
  | seen, [] => seen
  | seen, x :: xs =>
    if key x ∈ seen then dedupSeenAfter key seen xs
    else dedupSeenAfter key (key x :: seen) xs

/-- `parse_completed_courses` (advisor_engine.py lines 470-488): uppercase,
scan with the eight-department pattern, join each (dept, num) pair, and
deduplicate keeping the first occurrence. -/
def parse_completed_courses (text : String) : List String :=
  let found := reFindAll transcriptDepts (pyUpper text).data
  let ids := found.map (fun p => p.1 ++ p.2)
  dedupFirstBy (fun s => s) [] ids

/-!  Data model of the retrieval pipeline (advisor_engine.py lines 357-439). -/

/-- A retrieved chunk, as LangChain's `Document`: only `page_content` is read. -/
structure Doc where
  page_content : String
deriving DecidableEq

/-- One `{"role": ..., "content": ...}` dictionary of the conversation. -/
structure Turn where
  role : String
  content : String
deriving DecidableEq

/-- The three LangChain message constructors used by the source. -/
inductive Message where
  | system (content : String)
  | human (content : String)
  | ai (content : String)
deriving DecidableEq

/-- The vector store: `similarity_search(query, k)` may raise (modelled as
`Except`, payload = Python `str(e)`). -/
structure VectorStore where
  similarity_search : String → Nat → Except String (List Doc)

/-- `re.findall(r'(MATH|CISC|ENGL|PHYS|CHEM|BISC|GEOL)\s*(\d{3})',
latest_question.upper())` followed by `[f"{dept}{num}" ...]`
(advisor_engine.py lines 381-382). -/
def mentioned_course_codes (latest_question : String) : List String :=
  (reFindAll advisorDepts (pyUpper latest_question).data).map (fun p => p.1 ++ p.2)

/-- `code in doc.page_content.upper().replace(" ", "")` (line 391). -/
def doc_mentions_code (code : String) (doc : Doc) : Bool :=
  strContains (removeSpaces (pyUpper doc.page_content)) code

/-- The keyword scan (lines 388-393): keep each doc of `all_docs`, in order,
that mentions at least one of the extracted codes (the inner loop `break`s
at the first hit, so each doc is appended at most once). -/
def keyword_docs_of (course_codes : List String) (all_docs : List Doc) : List Doc :=
  all_docs.filter (fun doc => course_codes.any (fun code => doc_mentions_code code doc))

/-- The merge (lines 395-404): keyword docs first, then semantic docs,
deduplicated by exact `page_content` keeping the first occurrence, then
truncated to the first 15. -/
def combined_docs_of (keyword_docs relevant_docs : List Doc) : List Doc :=
  (dedupFirstBy Doc.page_content [] (keyword_docs ++ relevant_docs)).take 15

/-- `"\n\n".join([doc.page_content for doc in combined_docs])` (line 412). -/
def context_of (combined_docs : List Doc) : String :=
  String.intercalate "\n\n" (combined_docs.map Doc.page_content)

/-- The f-string of lines 425-433, exactly as written (the indentation of
the triple-quoted literal is part of the string). -/
def augmented_question_part1 : String :=
  "CONTEXT (from the official UD 2025-2026 Catalog):\n" ++
  "                                "

def augmented_question_part2 : String :=
  "\n\n" ++
  "                                STUDENT\x27S QUESTION:\n" ++
  "                                "

def augmented_question_part3 : String :=
  "\n\n" ++
  "                                Use the CONTEXT above to answer the student\x27s question accurately. \n" ++
  "                                If the context doesn\x27t fully answer the question, say so and recommend they check with their advisor.\n" ++
  "                            "

/-- `augmented_question = f"""CONTEXT ...{context}... {latest_question} ..."""`. -/
def augmented_question_of (context latest_question : String) : String :=
  augmented_question_part1 ++ context ++ augmented_question_part2 ++
    latest_question ++ augmented_question_part3

/-- The history loop of lines 419-423: a `"user"` turn becomes a
`HumanMessage`, an `"assistant"` turn an `AIMessage`, anything else is
skipped (`if`/`elif` with no `else`). -/
def history_messages : List Turn → List Message
  | [] => []
  | t :: ts =>
    (if t.role = "user" then [Message.human t.content]
     else if t.role = "assistant" then [Message.ai t.content]
     else []) ++ history_messages ts

/-- Lines 414-434: the system prompt, then every turn but the last, then one
final `HumanMessage` carrying the augmented question. -/
def build_messages (system_prompt : String) (conversation_history : List Turn)
    (context latest_question : String) : List Message :=
  [Message.system system_prompt] ++ history_messages conversation_history.dropLast ++
    [Message.human (augmented_question_of context latest_question)]

/-- The `except Exception` reply of line 439, with `str(e)` interpolated. -/
def pyDiagnostic (e : String) : String :=
  "I\x27m having trouble right now. Make sure Ollama is running with \x27ollama serve\x27. Error: " ++ e

/-- Result of one `get_advisor_response` call.  The Python function returns
only the response string; because the Python list argument is mutable we
additionally record the contents of `conversation_history` when the call
returns, so that non-mutation is a provable statement (the source never
writes to the list, so the field is the input list). -/
structure CallResult where
  response : String
  conversation_history : List Turn
deriving DecidableEq

/-- `get_advisor_response` (advisor_engine.py lines 357-439).  The whole body
sits in one `try`, modelled by the `Except` do-block: the first raise wins,
and the `except Exception` arm turns the payload into the diagnostic string.
`conversation_history[-1]` on an empty list raises
`IndexError("list index out of range")`. -/
def get_advisor_response (llm : List Message → Except String String)
    (store : VectorStore) (system_prompt : String)
    (conversation_history : List Turn) : CallResult :=
  let body : Except String String := do
    let latest_question ← (match conversation_history.getLast? with
      | some msg => Except.ok msg.content
      | none => Except.error "list index out of range")
    let relevant_docs ← store.similarity_search latest_question 10
    let course_codes := mentioned_course_codes latest_question
    let all_docs ← store.similarity_search "course prerequisites offered" 50
    let keyword_docs := keyword_docs_of course_codes all_docs
    let combined_docs := combined_docs_of keyword_docs relevant_docs
    let context := context_of combined_docs
    let messages := build_messages system_prompt conversation_history context latest_question
    llm messages
  match body with
  | Except.ok content => { response := content, conversation_history := conversation_history }
  | Except.error e => { response := pyDiagnostic e, conversation_history := conversation_history }

/-!  The system prompt of `build_system_prompt` (advisor_engine.py lines
236-331), reproduced verbatim.  It is split at the two phrases the
first-turn analysis refers to ("FIRST MESSAGE RULE" and "only one user
message in the history") so that their occurrence inside the prompt is
definitional; concatenating the parts with the two phrases restores the
source literal character for character. -/

def system_prompt_part_a : String :=
  " \n" ++
  "                        You are Aworawo, an AI academic advisor for the University of Delaware\x27s \n" ++
  "                        BS in Mathematics program in the Department of Mathematical Sciences.\n" ++
  "\n" ++
  "                        "

def system_prompt_part_b : String :=
  ":\n" ++
  "                            - When this is the FIRST message in a conversation ("

def system_prompt_part_c : String :=
  "), \n" ++
  "                            ALWAYS start your response with: \"Hi! I\x27m Aworawo 🎓 I can help you navigate your degree \n" ++
  "                            requirements, course planning, prerequisites, and even solve math problems for the BS in \n" ++
  "                            Mathematics at UD.\"\n" ++
  "                            Then add: \"\\n\\nNow, back to your question!\\n\\n\"\n" ++
  "                            Then answer their actual question normally.\n" ++
  "                            - For ALL subsequent messages, do NOT repeat the introduction. Just answer the question directly.\n" ++
  "\n" ++
  "\n" ++
  "                        YOUR MISSION:\n" ++
  "                            Help students — especially first-generation and international students — in TWO ways:\n" ++
  "\n" ++
  "                            1. ACADEMIC ADVISING: Navigate degree requirements, course planning, and prerequisites \n" ++
  "                            in plain, friendly English. You are a SUPPLEMENT to human advisors, not a replacement. \n" ++
  "                            Always encourage students to confirm important decisions with their official advisor.\n" ++
  "\n" ++
  "                            2. MATH TUTORING: Help students understand and solve math problems related to their coursework.\n" ++
  "                            This includes:\n" ++
  "                            - Showing step-by-step solutions with clear explanations\n" ++
  "                            - Explaining concepts from courses like Calculus, Linear Algebra, Differential Equations, \n" ++
  "                                Probability, Real Analysis, Abstract Algebra, and Discrete Math\n" ++
  "                            - Working through practice problems\n" ++
  "                            - Explaining WHY each step works, not just HOW\n" ++
  "                            - Using simple language before introducing formal notation\n" ++
  "                            - If a problem is too complex, break it into smaller parts\n" ++
  "                            \n" ++
  "                            When solving math problems:\n" ++
  "                            - Show your work step by step\n" ++
  "                            - Use clear formatting (number each step)\n" ++
  "                            - Explain the reasoning behind each step\n" ++
  "                            - Provide the final answer clearly marked with 📌\n" ++
  "                            - Offer to explain any step in more detail if needed\n" ++
  "                        \n" ++
  "                        YOUR PERSONALITY:\n" ++
  "                        -  Warm, encouraging, patient - like the best advisor your ever had\n" ++
  "                        - Use plain English, avoid jargon unless the student use it first\n" ++
  "                        - Be specific and actionable - don\x27t just sat \"take electives,\" say WHICH courses and WHY\n" ++
  "                        - When a student seems stressed, acknowledge it - \"I know this feels overwhelming, but let\x27s break it down\"\n" ++
  "                        - Use the student\x27s name if they provide it.\n" ++
  "                        - Celebrate progress - \"You\x27ve already knocked out Calc B and C - that\x27s huge!\"\n" ++
  "\n" ++
  "                        \n" ++
  "\n" ++
  "                        HOW TO HANDLE DIFFERENT QUESTION TYPES:\n" ++
  "                        1. \"What courses do I need?\" - Walk through the equirements category by category.\n" ++
  "                            Show what\x27s done (if the told you) and what\x27s left.\n" ++
  "                        2. \"What should I take next semester?\" - Check prerequisites they\x27ve completed, look at what\x27s offered that semester (Fall vs Spring), and suggest a \n" ++
  "                            balanced schedule (typically 4-5 courses, 15-17 credits). Consider prerequisite chains - don\x27t let them get bottlenecked!\n" ++
  "                        3. \"Can I graduate on time? - Count their completed credits vs 124 needed.\n" ++
  "                            Check if they have any prerequisite bottlenecks that could delay them.\n" ++
  "                        4. \"What are the prerequisites for X?\" - Look up the exact prerequisites from the course data.\n" ++
  "                            Also mention if there are corequisites. Explain the prerequisite chain if relevant.\n" ++
  "                        5. \"I\x27m struggling / thinking about switching majors\" - Be supportive. Mention UD resources:\n" ++
  "                            - Student Success Center in CAS\n" ++
  "                            - Math Sciences Learning Lab\n" ++
  "                            - Office hours with professors\n" ++
  "                            - Tutoring services\n" ++
  "                        6. \"I failed / need to retake a course\" - Explain how this affects their plan.\n" ++
  "                            Help them build a recovery plan. Check if the course is offerered every semsester or only Fall/Spring.\n" ++
  "\n" ++
  "                        IMPORTANT RULES:\n" ++
  "                        - ALWAYS check prerequisites before recommending a course\n" ++
  "                        - ALWAYS note when a course is only offered in Fall or Spring - this is a common trap!\n" ++
  "                        - If you\x27re unsure about something, SAY SO and recommend with their advisor\n" ++
  "                        - Never make up course information - only reference courses in your knowledge base\n" ++
  "                        - When listing courses, include the course number AND name (e.g., \"MATH 245 — Introduction to Proof\")\n" ++
  "                        - Remind students about the C- minimum grade requirement for major courses\n" ++
  "                        - Flag the restricted electives rules - MATH 308, 379, 382 DON\x27T count\n" ++
  "\n" ++
  "                        FORMAT GUIDELINES:\n" ++
  "                            - Use **bold** for course names and important terms\n" ++
  "                            - Use ### headings to organize long answers into sections\n" ++
  "                            - Use bullet points for lists of courses or requirements\n" ++
  "                            - Use ✅ for completed items and ⬜ for remaining items when doing audits\n" ++
  "                            - Use ⚠️ for warnings (prerequisite issues, scheduling conflicts, Spring/Fall only courses)\n" ++
  "                            - Use 📌 for key takeaways or action items\n" ++
  "                            - Use numbered lists (1. 2. 3.) for step-by-step plans or recommended course sequences\n" ++
  "                            - Add a brief friendly summary at the end of long answers\n" ++
  "                            - Keep responses well-structured but conversational — like a knowledgeable friend, not a textbook\n" ++
  "                            - Break up walls of text with spacing and formatting\n" ++
  "                            - When recommending a semester schedule, present it in a clear organized format with total credits\n" ++
  "\n" ++
  "                        You will receive CONTEXT with each question — this is real data from the UD catalog.\n" ++
  "                        Base your answers on this context. If the context doesn\x27t contain the answer, say so honestly.\n" ++
  "\n" ++
  "                    "

/-- `build_system_prompt` (lines 236-331): a constant — it takes no
argument and inspects no conversation state. -/
def build_system_prompt : String :=
  system_prompt_part_a ++ "FIRST MESSAGE RULE" ++ system_prompt_part_b ++
    "only one user message in the history" ++ system_prompt_part_c

/-!  Model of `load_knowledge_base` (advisor_engine.py lines 29-189).

Each of the two JSON files is either missing, present but malformed, or
parsed; the parsed payloads and the document synthesis performed on them
(lines 62-187) are abstracted as type parameters and a synthesis function,
because claim C5 is about the error-handling skeleton of lines 43-60 and
the way control then falls through into the synthesis code.  Python
variable semantics: an `except` arm that only prints leaves `courses` /
`degrees` unbound, and the first later read of an unbound local raises
`UnboundLocalError`; `degrees` is read first (line 66), `courses` not
before line 161. -/

/-- How one `open` + `json.load` attempt can go. -/
inductive FileRead (α : Type) where
  | missing
  | badJson (detail : String)
  | parsed (value : α)

/-- What the call to `load_knowledge_base` does in the end. -/
inductive LoadOutcome where
  | returned (documents : List String)
  | uncaughtException (exn : String)
deriving DecidableEq

/-- `load_knowledge_base`, returning the list of `print`ed lines and the
outcome.  `kb_dir` models the `knowledge_bank` directory path used in the
messages; the malformed-JSON message contains no file path, exactly as in
the source. -/
def load_knowledge_base {D C : Type} (synthesize : D → C → List String)
    (kb_dir : String) (coursesFile : FileRead C) (degreesFile : FileRead D) :
    List String × LoadOutcome :=
  let coursesLog : List String :=
    match coursesFile with
    | FileRead.missing => ["Error: The file " ++ kb_dir ++ "/courses.json was not found"]
    | FileRead.badJson e => ["Invalid JSON syntax: " ++ e]
    | FileRead.parsed _ => []
  let degreesLog : List String :=
    match degreesFile with
    | FileRead.missing => ["Error: The file " ++ kb_dir ++ "/degrees.json was not found"]
    | FileRead.badJson e => ["Invalid JSON syntax: " ++ e]
    | FileRead.parsed _ => []
  let log := coursesLog ++ degreesLog ++ ["\n========== Files read successfully =============\n"]
  match degreesFile, coursesFile with
  | FileRead.parsed d, FileRead.parsed c => (log, LoadOutcome.returned (synthesize d c))
  | FileRead.parsed _, _ =>
      (log, LoadOutcome.uncaughtException "UnboundLocalError: \x27courses\x27")
  | _, _ =>
      (log, LoadOutcome.uncaughtException "UnboundLocalError: \x27degrees\x27")

/-!  Helper lemmas about the deduplication / merge machinery. -/

/-- Keys already in `seen` never come back out of `dedupFirstBy`. -/
theorem dedupFirstBy_key_not_seen {α : Type} (key : α → String) :
    ∀ (l : List α) (seen : List String) (x : α),
      x ∈ dedupFirstBy key seen l → key x ∉ seen := by
  intro l
  induction l with
  | nil => intro seen x hx; simp [dedupFirstBy] at hx
  | cons a as ih =>
    intro seen x hx
    by_cases ha : key a ∈ seen
    · simp only [dedupFirstBy, if_pos ha] at hx
      exact ih seen x hx
    · simp only [dedupFirstBy, if_neg ha] at hx
      rcases List.mem_cons.mp hx with hx | hx
      · subst hx; exact ha
      · intro hmem
        exact ih (key a :: seen) x hx (List.mem_cons_of_mem _ hmem)

/-- The keys of the output of `dedupFirstBy` are pairwise distinct. -/
theorem dedupFirstBy_nodup {α : Type} (key : α → String) :
    ∀ (l : List α) (seen : List String),
      ((dedupFirstBy key seen l).map key).Nodup := by
  intro l
  induction l with
  | nil => intro seen; simp [dedupFirstBy]
  | cons a as ih =>
    intro seen
    by_cases ha : key a ∈ seen
    · simp only [dedupFirstBy, if_pos ha]; exact ih seen
    · simp only [dedupFirstBy, if_neg ha, List.map_cons, List.nodup_cons]
      refine ⟨?_, ih (key a :: seen)⟩
      intro hmem
      rcases List.mem_map.mp hmem with ⟨x, hx, hkey⟩
      exact dedupFirstBy_key_not_seen key as (key a :: seen) x hx
        (hkey ▸ List.mem_cons_self _ _)

/-- Every element of the deduplicated list comes from the input list. -/
theorem dedupFirstBy_subset {α : Type} (key : α → String) :
    ∀ (l : List α) (seen : List String) (x : α),
      x ∈ dedupFirstBy key seen l → x ∈ l := by
  intro l
  induction l with
  | nil => intro seen x hx; simp [dedupFirstBy] at hx
  | cons a as ih =>
    intro seen x hx
    by_cases ha : key a ∈ seen
    · simp only [dedupFirstBy, if_pos ha] at hx
      exact List.mem_cons_of_mem _ (ih seen x hx)
    · simp only [dedupFirstBy, if_neg ha] at hx
      rcases List.mem_cons.mp hx with hx | hx
      · subst hx; exact List.mem_cons_self _ _
      · exact List.mem_cons_of_mem _ (ih (key a :: seen) x hx)

/-- A list whose keys are pairwise distinct and disjoint from `seen` passes
through `dedupFirstBy` unchanged. -/
theorem dedupFirstBy_eq_self {α : Type} (key : α → String) :
    ∀ (l : List α) (seen : List String),
      ((l.map key).Nodup) → (∀ x ∈ l, key x ∉ seen) →
      dedupFirstBy key seen l = l := by
  intro l
  induction l with
  | nil => intro seen _ _; rfl
  | cons a as ih =>
    intro seen hnd hdisj
    have ha : key a ∉ seen := hdisj a (List.mem_cons_self _ _)
    simp only [List.map_cons, List.nodup_cons] at hnd
    simp only [dedupFirstBy, if_neg ha]
    congr 1
    refine ih (key a :: seen) hnd.2 ?_
    intro x hx hmem
    rcases List.mem_cons.mp hmem with h | h
    · exact hnd.1 (h ▸ List.mem_map_of_mem key hx)
    · exact hdisj x (List.mem_cons_of_mem _ hx) h

/-- Running `dedupFirstBy` over a concatenation processes the two halves in
sequence, the second starting from the `seen` set the first accumulated. -/
theorem dedupFirstBy_append {α : Type} (key : α → String) :
    ∀ (a b : List α) (seen : List String),
      dedupFirstBy key seen (a ++ b) =
        dedupFirstBy key seen a ++ dedupFirstBy key (dedupSeenAfter key seen a) b := by
  intro a
  induction a with
  | nil => intro b seen; rfl
  | cons x xs ih =>
    intro b seen
    by_cases hx : key x ∈ seen
    · simp only [List.cons_append, dedupFirstBy, dedupSeenAfter, if_pos hx]
      exact ih b seen
    · simp only [List.cons_append, dedupFirstBy, dedupSeenAfter, if_neg hx, List.append_eq]
      rw [ih b (key x :: seen)]

/-- With no course codes the keyword scan keeps nothing. -/
theorem keyword_docs_of_nil (all_docs : List Doc) :
    keyword_docs_of [] all_docs = [] := by
  induction all_docs with
  | nil => rfl
  | cons d ds ih => simp_all [keyword_docs_of, List.filter]

/-- With a single code the keyword scan is a plain filter on that code. -/
theorem keyword_docs_of_singleton (code : String) (all_docs : List Doc) :
    keyword_docs_of [code] all_docs =
      all_docs.filter (fun d => doc_mentions_code code d) := by
  simp [keyword_docs_of, List.any_cons, List.any_nil]

/-- `get_advisor_response` never writes to the conversation history. -/
theorem get_advisor_response_history (llm : List Message → Except String String)
    (store : VectorStore) (system_prompt : String) (conversation_history : List Turn) :
    (get_advisor_response llm store system_prompt conversation_history).conversation_history =
      conversation_history := by
  unfold get_advisor_response
  cases h : (do
    let latest_question ← (match conversation_history.getLast? with
      | some msg => Except.ok msg.content
      | none => Except.error "list index out of range")
    let relevant_docs ← store.similarity_search latest_question 10
    let course_codes := mentioned_course_codes latest_question
    let all_docs ← store.similarity_search "course prerequisites offered" 50
    let keyword_docs := keyword_docs_of course_codes all_docs
    let combined_docs := combined_docs_of keyword_docs relevant_docs
    let context := context_of combined_docs
    let messages := build_messages system_prompt conversation_history context latest_question
    llm messages : Except String String) <;> simp [h]

/-- The diagnostic string is never empty. -/
theorem pyDiagnostic_ne_empty (e : String) : pyDiagnostic e ≠ "" := by
  intro h
  have hd := congrArg String.data h
  simp only [pyDiagnostic] at hd
  have : ("I\x27m having trouble right now. Make sure Ollama is running with \x27ollama serve\x27. Error: ").data ++ e.data = [] := hd
  have h2 := congrArg List.length this
  simp [List.length_append] at h2

/-- `tryDept` only returns departments drawn from its alternation list. -/
theorem tryDept_mem :
    ∀ (depts : List String) (cs : List Char) (d : String) (rest : List Char),
      tryDept depts cs = some (d, rest) → d ∈ depts := by
  intro depts
  induction depts with
  | nil => intro cs d rest h; simp [tryDept] at h
  | cons a as ih =>
    intro cs d rest h
    simp only [tryDept] at h
    cases hs : stripPatChars a.data cs with
    | some r =>
      rw [hs] at h
      injection h with h'
      injection h' with h1 h2
      subst h1
      exact List.mem_cons_self _ _
    | none =>
      rw [hs] at h
      exact List.mem_cons_of_mem _ (ih cs d rest h)

/-- `matchDigits3` only returns three-character all-digit strings. -/
theorem matchDigits3_spec :
    ∀ (cs : List Char) (num : String) (rest : List Char),
      matchDigits3 cs = some (num, rest) →
      num.length = 3 ∧ ∀ c ∈ num.data, c.isDigit = true := by
  intro cs num rest h
  match cs with
  | [] => simp [matchDigits3] at h
  | [c1] => simp [matchDigits3] at h
  | [c1, c2] => simp [matchDigits3] at h
  | c1 :: c2 :: c3 :: crest =>
    simp only [matchDigits3] at h
    by_cases hd : (c1.isDigit && c2.isDigit && c3.isDigit) = true
    · rw [if_pos hd] at h
      injection h with h'
      injection h' with h1 h2
      subst h1
      simp only [Bool.and_eq_true] at hd
      refine ⟨rfl, ?_⟩
      intro c hc
      have hc3 : c = c1 ∨ c = c2 ∨ c = c3 := by simpa using hc
      rcases hc3 with rfl | rfl | rfl
      · exact hd.1.1
      · exact hd.1.2
      · exact hd.2
    · rw [if_neg hd] at h
      simp at h

/-- Every match that `tryMatchAt` produces is a department of the
alternation plus exactly three digits. -/
theorem tryMatchAt_spec (depts : List String) (cs : List Char)
    (d num : String) (rest : List Char)
    (h : tryMatchAt depts cs = some (d, num, rest)) :
    d ∈ depts ∧ num.length = 3 ∧ ∀ c ∈ num.data, c.isDigit = true := by
  unfold tryMatchAt at h
  cases hdep : tryDept depts cs with
  | none => rw [hdep] at h; simp at h
  | some p =>
    obtain ⟨d', rest'⟩ := p
    rw [hdep] at h
    dsimp only at h
    cases hmd : matchDigits3 (skipSpaces rest') with
    | none => rw [hmd] at h; simp at h
    | some q =>
      obtain ⟨num', rest2⟩ := q
      rw [hmd] at h
      simp only [Option.some.injEq, Prod.mk.injEq] at h
      obtain ⟨hd1, hnum, hrest⟩ := h
      subst hd1
      subst hnum
      exact ⟨tryDept_mem depts cs _ rest' hdep, matchDigits3_spec _ _ rest2 hmd⟩

/-- Every pair the fuelled scan emits satisfies the per-match shape. -/
theorem reFindAllAux_spec (depts : List String) :
    ∀ (fuel : Nat) (cs : List Char) (p : String × String),
      p ∈ reFindAllAux depts fuel cs →
      p.1 ∈ depts ∧ p.2.length = 3 ∧ ∀ c ∈ p.2.data, c.isDigit = true := by
  intro fuel
  induction fuel with
  | zero => intro cs p hp; simp [reFindAllAux] at hp
  | succ n ih =>
    intro cs p hp
    match cs with
    | [] => simp [reFindAllAux] at hp
    | c :: cs' =>
      simp only [reFindAllAux] at hp
      cases hm : tryMatchAt depts (c :: cs') with
      | none =>
        rw [hm] at hp
        exact ih cs' p hp
      | some t =>
        obtain ⟨d, num, rest⟩ := t
        rw [hm] at hp
        rcases List.mem_cons.mp hp with hp | hp
        · subst hp
          exact tryMatchAt_spec depts (c :: cs') d num rest hm
        · exact ih rest p hp

/-- Every pair `reFindAll` emits is a department plus three digits. -/
theorem reFindAll_spec (depts : List String) (cs : List Char) (p : String × String)
    (hp : p ∈ reFindAll depts cs) :
    p.1 ∈ depts ∧ p.2.length = 3 ∧ ∀ c ∈ p.2.data, c.isDigit = true :=
  reFindAllAux_spec depts cs.length cs p hp

/-- Under the data-model role invariant (roles are `"user"` or
`"assistant"`), the history loop maps every prior turn, dropping none. -/
theorem history_messages_eq_map (l : List Turn)
    (h : ∀ t ∈ l, t.role = "user" ∨ t.role = "assistant") :
    history_messages l = l.map (fun t =>
      if t.role = "user" then Message.human t.content else Message.ai t.content) := by
  induction l with
  | nil => rfl
  | cons a as ih =>
    have ha := h a (List.mem_cons_self _ _)
    have hrest : ∀ t ∈ as, t.role = "user" ∨ t.role = "assistant" :=
      fun t ht => h t (List.mem_cons_of_mem _ ht)
    rcases ha with ha | ha
    · simp [history_messages, ha, ih hrest]
    · by_cases hu : a.role = "user"
      · simp [history_messages, hu, ih hrest]
      · simp [history_messages, hu, ha, ih hrest]

/-- When the history is non-empty and both similarity searches succeed, the
call reduces to invoking the model on the assembled message list and
wrapping its outcome. -/
theorem get_advisor_response_success (llm : List Message → Except String String)
    (store : VectorStore) (sys : String) (history : List Turn) (t : Turn)
    (rel all : List Doc)
    (hlast : history.getLast? = some t)
    (hrel : store.similarity_search t.content 10 = Except.ok rel)
    (hall : store.similarity_search "course prerequisites offered" 50 = Except.ok all) :
    get_advisor_response llm store sys history =
      match llm (build_messages sys history
          (context_of (combined_docs_of
            (keyword_docs_of (mentioned_course_codes t.content) all) rel)) t.content) with
      | Except.ok content => { response := content, conversation_history := history }
      | Except.error e => { response := pyDiagnostic e, conversation_history := history } := by
  simp only [get_advisor_response, hlast, hrel, hall, bind, Except.bind]

/-- When the history is non-empty and the first similarity search raises,
the call returns the generic diagnostic built from that error. -/
theorem get_advisor_response_search_failure (llm : List Message → Except String String)
    (store : VectorStore) (sys : String) (history : List Turn) (t : Turn) (e : String)
    (hlast : history.getLast? = some t)
    (hfail : store.similarity_search t.content 10 = Except.error e) :
    get_advisor_response llm store sys history =
      { response := pyDiagnostic e, conversation_history := history } := by
  simp only [get_advisor_response, hlast, hfail, bind, Except.bind]

/-- C1: for every question and index (i.e., for every keyword-match list and
semantic-match list the searches can produce), the assembled context is the
keyword matches followed by the semantic matches, deduplicated by exact
fragment text keeping the first (keyword-sourced) occurrence, truncated to
at most 15 fragments, and joined with blank lines — hence the combined list
never holds more than 15 fragments and never holds two fragments with the
same text. -/
theorem C1_merge_cap_dedup (keyword_docs relevant_docs : List Doc) :
    combined_docs_of keyword_docs relevant_docs =
      (dedupFirstBy Doc.page_content [] (keyword_docs ++ relevant_docs)).take 15 ∧
    (combined_docs_of keyword_docs relevant_docs).length ≤ 15 ∧
    ((combined_docs_of keyword_docs relevant_docs).map Doc.page_content).Nodup ∧
    context_of (combined_docs_of keyword_docs relevant_docs) =
      String.intercalate "\n\n"
        ((combined_docs_of keyword_docs relevant_docs).map Doc.page_content) := by
  refine ⟨rfl, ?_, ?_, rfl⟩
  · unfold combined_docs_of
    exact List.length_take_le 15 (dedupFirstBy Doc.page_content [] (keyword_docs ++ relevant_docs))
  · have hnd := dedupFirstBy_nodup Doc.page_content (keyword_docs ++ relevant_docs) []
    have hsub : (combined_docs_of keyword_docs relevant_docs).Sublist
        (dedupFirstBy Doc.page_content [] (keyword_docs ++ relevant_docs)) :=
      List.take_sublist _ _
    exact List.Nodup.sublist (List.Sublist.map Doc.page_content hsub) hnd

/-- C4: `parse_completed_courses` is total (a Lean function of type
`String → List String`, returning `[]` on empty input), returns only
identifiers of the shape fixed-department-prefix plus exactly three digits,
deduplicated in order of first appearance, and on the spec's round-trip
input it returns exactly `["MATH302", "CISC106"]`. -/
theorem C4_extract_identifiers :
    (∀ text : String, (parse_completed_courses text).Nodup) ∧
    (∀ text : String, ∀ c ∈ parse_completed_courses text,
      ∃ d n, d ∈ transcriptDepts ∧ n.length = 3 ∧
        (∀ ch ∈ n.data, ch.isDigit = true) ∧ c = d ++ n) ∧
    parse_completed_courses "I took Math 302 and CISC106 and math302 again" =
      ["MATH302", "CISC106"] ∧
    parse_completed_courses "" = [] := by
  refine ⟨?_, ?_, by decide, by decide⟩
  · intro text
    have h := dedupFirstBy_nodup (fun s => s)
      ((reFindAll transcriptDepts (pyUpper text).data).map (fun p => p.1 ++ p.2)) []
    simpa [parse_completed_courses] using h
  · intro text c hc
    have hc' : c ∈ (reFindAll transcriptDepts (pyUpper text).data).map (fun p => p.1 ++ p.2) :=
      dedupFirstBy_subset (fun s => s) _ [] c hc
    rcases List.mem_map.mp hc' with ⟨p, hp, hpc⟩
    have hs := reFindAll_spec transcriptDepts (pyUpper text).data p hp
    exact ⟨p.1, p.2, hs.1, hs.2.1, hs.2.2, hpc.symm⟩

/-- Witness for C4: the general clauses evaluated at concrete inputs. -/
theorem C4_extract_identifiers_witness :
    (parse_completed_courses "take UNIV101 then univ 101").Nodup ∧
    (∃ d n, d ∈ transcriptDepts ∧ n.length = 3 ∧
      (∀ ch ∈ n.data, ch.isDigit = true) ∧ "UNIV101" = d ++ n) :=
  ⟨C4_extract_identifiers.1 "take UNIV101 then univ 101",
   C4_extract_identifiers.2.1 "take UNIV101 then univ 101" "UNIV101" (by decide)⟩

/-- C2 counterexample: a query that mentions MATH302 together with fifteen
other course identifiers, against a fragment set in which exactly one
fragment `F` contains MATH302.  The fifteen fragments matched by the other
identifiers precede `F` in the scan, so the 15-fragment truncation drops
`F` from the assembled context, contradicting the claim that `F` always
appears. -/
theorem C2_counterexample :
    let q := "MATH302 CISC100 CISC101 CISC102 CISC103 CISC104 CISC105 CISC106 CISC107 CISC108 CISC109 PHYS100 PHYS101 PHYS102 PHYS103 PHYS104"
    let allD : List Doc :=
      [⟨"CISC100 info"⟩, ⟨"CISC101 info"⟩, ⟨"CISC102 info"⟩, ⟨"CISC103 info"⟩,
       ⟨"CISC104 info"⟩, ⟨"CISC105 info"⟩, ⟨"CISC106 info"⟩, ⟨"CISC107 info"⟩,
       ⟨"CISC108 info"⟩, ⟨"CISC109 info"⟩, ⟨"PHYS100 info"⟩, ⟨"PHYS101 info"⟩,
       ⟨"PHYS102 info"⟩, ⟨"PHYS103 info"⟩, ⟨"PHYS104 info"⟩, ⟨"MATH302 info"⟩]
    "MATH302" ∈ mentioned_course_codes q ∧
    allD.filter (fun d => doc_mentions_code "MATH302" d) = [⟨"MATH302 info"⟩] ∧
    (⟨"MATH302 info"⟩ : Doc) ∉
      combined_docs_of (keyword_docs_of (mentioned_course_codes q) allD) [] := by
  set_option maxRecDepth 8000 in decide

/-- C2 (amended): if the question mentions MATH302, exactly one fragment
`F` of the scanned set contains MATH302 (under the code's case- and
space-insensitive containment), and fewer than fifteen distinct-text
keyword matches precede `F` (formally: `F` survives into the first fifteen
deduplicated keyword matches), then the assembled list is those
deduplicated keyword matches followed only by semantically retrieved
fragments, so `F` appears and appears before every fragment not obtained
via keyword match; and the matching treats "MATH 302" and "math302" as
matching "MATH302". -/
theorem C2_keyword_precedence (question : String) (all_docs rel : List Doc) (F : Doc)
    (h1 : "MATH302" ∈ mentioned_course_codes question)
    (h2 : all_docs.filter (fun d => doc_mentions_code "MATH302" d) = [F])
    (h3 : F ∈ (dedupFirstBy Doc.page_content []
      (keyword_docs_of (mentioned_course_codes question) all_docs)).take 15) :
    F ∈ keyword_docs_of (mentioned_course_codes question) all_docs ∧
    (∃ post,
      combined_docs_of (keyword_docs_of (mentioned_course_codes question) all_docs) rel =
        (dedupFirstBy Doc.page_content []
          (keyword_docs_of (mentioned_course_codes question) all_docs)).take 15 ++ post ∧
      F ∈ combined_docs_of (keyword_docs_of (mentioned_course_codes question) all_docs) rel ∧
      ∀ g ∈ post, g ∈ rel) ∧
    mentioned_course_codes "MATH 302" = ["MATH302"] ∧
    mentioned_course_codes "math302" = ["MATH302"] := by
  refine ⟨?_, ?_, by decide, by decide⟩
  · have hF : F ∈ all_docs.filter (fun d => doc_mentions_code "MATH302" d) := by
      rw [h2]; exact List.mem_cons_self _ _
    have hFall := List.mem_of_mem_filter hF
    have hFmatch : doc_mentions_code "MATH302" F = true := List.of_mem_filter hF
    refine List.mem_filter.mpr ⟨hFall, ?_⟩
    exact List.any_eq_true.mpr ⟨"MATH302", h1, hFmatch⟩
  · set kd := keyword_docs_of (mentioned_course_codes question) all_docs with hkd
    have hsplit : combined_docs_of kd rel =
        (dedupFirstBy Doc.page_content [] kd).take 15 ++
          (dedupFirstBy Doc.page_content (dedupSeenAfter Doc.page_content [] kd) rel).take
            (15 - (dedupFirstBy Doc.page_content [] kd).length) := by
      unfold combined_docs_of
      rw [dedupFirstBy_append, List.take_append_eq_append_take]
    refine ⟨_, hsplit, ?_, ?_⟩
    · rw [hsplit]
      exact List.mem_append_left _ h3
    · intro g hg
      exact dedupFirstBy_subset Doc.page_content rel _ g (List.mem_of_mem_take hg)

/-- Witness for C2 (amended): a concrete question mentioning only MATH302,
one matching fragment, one semantic fragment. -/
theorem C2_keyword_precedence_witness :
    (⟨"Course: MATH302, prereq MATH241"⟩ : Doc) ∈
      keyword_docs_of (mentioned_course_codes "What are the prerequisites for MATH 302?")
        [⟨"CISC106 overview"⟩, ⟨"Course: MATH302, prereq MATH241"⟩] ∧
    (∃ post,
      combined_docs_of (keyword_docs_of
        (mentioned_course_codes "What are the prerequisites for MATH 302?")
        [⟨"CISC106 overview"⟩, ⟨"Course: MATH302, prereq MATH241"⟩]) [⟨"semantic hit"⟩] =
        (dedupFirstBy Doc.page_content []
          (keyword_docs_of (mentioned_course_codes "What are the prerequisites for MATH 302?")
            [⟨"CISC106 overview"⟩, ⟨"Course: MATH302, prereq MATH241"⟩])).take 15 ++ post ∧
      (⟨"Course: MATH302, prereq MATH241"⟩ : Doc) ∈
        combined_docs_of (keyword_docs_of
          (mentioned_course_codes "What are the prerequisites for MATH 302?")
          [⟨"CISC106 overview"⟩, ⟨"Course: MATH302, prereq MATH241"⟩]) [⟨"semantic hit"⟩] ∧
      ∀ g ∈ post, g ∈ [(⟨"semantic hit"⟩ : Doc)]) ∧
    mentioned_course_codes "MATH 302" = ["MATH302"] ∧
    mentioned_course_codes "math302" = ["MATH302"] :=
  C2_keyword_precedence "What are the prerequisites for MATH 302?"
    [⟨"CISC106 overview"⟩, ⟨"Course: MATH302, prereq MATH241"⟩] [⟨"semantic hit"⟩]
    ⟨"Course: MATH302, prereq MATH241"⟩ (by decide) (by decide) (by decide)

/-- C3 counterexample: a store holding twenty distinct fragments, returning
the best `k` for any query.  For the identifier-free question "hello" the
code retrieves `k = 10` semantic matches, so the assembled context is the
top ten — not the top fifteen the claim promises, which here has fifteen
distinct fragments. -/
theorem C3_counterexample :
    let docs : List Doc :=
      [⟨"f01"⟩, ⟨"f02"⟩, ⟨"f03"⟩, ⟨"f04"⟩, ⟨"f05"⟩, ⟨"f06"⟩, ⟨"f07"⟩, ⟨"f08"⟩,
       ⟨"f09"⟩, ⟨"f10"⟩, ⟨"f11"⟩, ⟨"f12"⟩, ⟨"f13"⟩, ⟨"f14"⟩, ⟨"f15"⟩, ⟨"f16"⟩,
       ⟨"f17"⟩, ⟨"f18"⟩, ⟨"f19"⟩, ⟨"f20"⟩]
    let store : VectorStore := ⟨fun _ k => Except.ok (docs.take k)⟩
    mentioned_course_codes "hello" = [] ∧
    store.similarity_search "hello" 10 = Except.ok (docs.take 10) ∧
    store.similarity_search "hello" 15 = Except.ok (docs.take 15) ∧
    combined_docs_of (keyword_docs_of (mentioned_course_codes "hello") (docs.take 50))
      (docs.take 10) = docs.take 10 ∧
    docs.take 10 ≠ docs.take 15 ∧
    context_of (combined_docs_of
        (keyword_docs_of (mentioned_course_codes "hello") (docs.take 50)) (docs.take 10)) ≠
      context_of (docs.take 15) := by
  refine ⟨by decide, rfl, rfl, by decide, by decide, by decide⟩

/-- C3 (amended): for an identifier-free question the keyword set is empty,
so the assembled list is exactly the semantic matches deduplicated by text
(first kept) and truncated to 15; since the code retrieves the semantic
matches with `k = 10`, whenever the search honours `k` (at most ten
results) and returns distinct texts, the context is exactly the top-10
semantic matches in semantic-similarity order. -/
theorem C3_no_codes_semantic_only (question : String) (all rel : List Doc)
    (h0 : mentioned_course_codes question = []) :
    combined_docs_of (keyword_docs_of (mentioned_course_codes question) all) rel =
      (dedupFirstBy Doc.page_content [] rel).take 15 ∧
    ((rel.map Doc.page_content).Nodup → rel.length ≤ 10 →
      combined_docs_of (keyword_docs_of (mentioned_course_codes question) all) rel = rel) := by
  have hkw : keyword_docs_of (mentioned_course_codes question) all = [] := by
    rw [h0]; exact keyword_docs_of_nil all
  constructor
  · rw [hkw]
    unfold combined_docs_of
    rw [List.nil_append]
  · intro hnd hlen
    rw [hkw]
    unfold combined_docs_of
    rw [List.nil_append, dedupFirstBy_eq_self Doc.page_content rel [] hnd (by simp)]
    exact List.take_of_length_le (le_trans hlen (by norm_num))

/-- Witness for C3 (amended): identifier-free question, three distinct
semantic matches. -/
theorem C3_no_codes_semantic_only_witness :
    combined_docs_of (keyword_docs_of (mentioned_course_codes "when do I graduate")
        [⟨"a"⟩, ⟨"b"⟩]) [⟨"s1"⟩, ⟨"s2"⟩, ⟨"s3"⟩] =
      (dedupFirstBy Doc.page_content [] [⟨"s1"⟩, ⟨"s2"⟩, ⟨"s3"⟩]).take 15 ∧
    ((([⟨"s1"⟩, ⟨"s2"⟩, ⟨"s3"⟩] : List Doc).map Doc.page_content).Nodup →
      ([⟨"s1"⟩, ⟨"s2"⟩, ⟨"s3"⟩] : List Doc).length ≤ 10 →
      combined_docs_of (keyword_docs_of (mentioned_course_codes "when do I graduate")
        [⟨"a"⟩, ⟨"b"⟩]) [⟨"s1"⟩, ⟨"s2"⟩, ⟨"s3"⟩] = [⟨"s1"⟩, ⟨"s2"⟩, ⟨"s3"⟩]) :=
  C3_no_codes_semantic_only "when do I graduate" [⟨"a"⟩, ⟨"b"⟩]
    [⟨"s1"⟩, ⟨"s2"⟩, ⟨"s3"⟩] (by decide)

/-- C5 (code bug witness): with `courses.json` missing and `degrees.json`
valid, `load_knowledge_base` prints the missing-file message, still prints
the "Files read successfully" banner, and then dies with an uncaught
`UnboundLocalError` when the unbound `courses` variable is read — it
neither aborts after reporting nor returns an error value; and with a
malformed `courses.json` the printed parse message carries no file path. -/
theorem C5_load_does_not_abort :
    load_knowledge_base (fun (_ : Unit) (_ : Unit) => ([] : List String)) "knowledge_bank"
        FileRead.missing (FileRead.parsed ()) =
      (["Error: The file knowledge_bank/courses.json was not found",
        "\n========== Files read successfully =============\n"],
       LoadOutcome.uncaughtException "UnboundLocalError: \x27courses\x27") ∧
    load_knowledge_base (fun (_ : Unit) (_ : Unit) => ([] : List String)) "knowledge_bank"
        (FileRead.badJson "Expecting value: line 1 column 1 (char 0)") (FileRead.parsed ()) =
      (["Invalid JSON syntax: Expecting value: line 1 column 1 (char 0)",
        "\n========== Files read successfully =============\n"],
       LoadOutcome.uncaughtException "UnboundLocalError: \x27courses\x27") ∧
    load_knowledge_base (fun (_ : Unit) (_ : Unit) => ([] : List String)) "knowledge_bank"
        (FileRead.parsed ()) FileRead.missing =
      (["Error: The file knowledge_bank/degrees.json was not found",
        "\n========== Files read successfully =============\n"],
       LoadOutcome.uncaughtException "UnboundLocalError: \x27degrees\x27") :=
  ⟨rfl, rfl, rfl⟩

/-- C6 counterexample: a store whose search raises, against a model that
would happily answer any prompt.  The call returns the Ollama troubleshoot
diagnostic — the model is never consulted and no answer over an empty
context is produced, contradicting "the query is still answered". -/
theorem C6_counterexample :
    (get_advisor_response (fun _ => Except.ok "ANSWER")
        ⟨fun _ _ => Except.error "boom"⟩ "SYS" [⟨"user", "hi"⟩]).response =
      pyDiagnostic "boom" ∧
    (get_advisor_response (fun _ => Except.ok "ANSWER")
        ⟨fun _ _ => Except.error "boom"⟩ "SYS" [⟨"user", "hi"⟩]).response ≠ "ANSWER" := by
  refine ⟨rfl, by decide⟩

/-- C6 (amended): a failure of the index search performed during context
assembly is absorbed by the function's catch-all handler — the caller sees
no exception — but instead of degrading to an empty context and answering
the query, the call skips the model entirely (the result is the same for
every model function) and returns the generic Ollama diagnostic built from
the search error. -/
theorem C6_search_failure_absorbed (llm : List Message → Except String String)
    (store : VectorStore) (sys : String) (history : List Turn) (t : Turn) (e : String)
    (hlast : history.getLast? = some t)
    (hfail : store.similarity_search t.content 10 = Except.error e) :
    (get_advisor_response llm store sys history).response = pyDiagnostic e ∧
    (get_advisor_response llm store sys history).response ≠ "" ∧
    (get_advisor_response llm store sys history).conversation_history = history := by
  rw [get_advisor_response_search_failure llm store sys history t e hlast hfail]
  exact ⟨rfl, pyDiagnostic_ne_empty e, rfl⟩

/-- Witness for C6 (amended): concrete failing store. -/
theorem C6_search_failure_absorbed_witness :
    (get_advisor_response (fun _ => Except.ok "ok")
        ⟨fun _ _ => Except.error "connection refused"⟩ "SYS" [⟨"user", "hi"⟩]).response =
      pyDiagnostic "connection refused" ∧
    (get_advisor_response (fun _ => Except.ok "ok")
        ⟨fun _ _ => Except.error "connection refused"⟩ "SYS" [⟨"user", "hi"⟩]).response ≠ "" ∧
    (get_advisor_response (fun _ => Except.ok "ok")
        ⟨fun _ _ => Except.error "connection refused"⟩ "SYS"
        [⟨"user", "hi"⟩]).conversation_history = [⟨"user", "hi"⟩] :=
  C6_search_failure_absorbed (fun _ => Except.ok "ok")
    ⟨fun _ _ => Except.error "connection refused"⟩ "SYS" [⟨"user", "hi"⟩]
    ⟨"user", "hi"⟩ "connection refused" rfl rfl

/-- C7: when the language-model invocation fails, the call returns the
non-empty user-visible diagnostic naming the likely cause (Ollama backend
not running) instead of raising, and the conversation history it was given
is left exactly as it was — no assistant turn is appended by the
orchestrator. -/
theorem C7_model_failure_isolated (llm : List Message → Except String String)
    (store : VectorStore) (sys : String) (history : List Turn) (t : Turn)
    (rel all : List Doc) (e : String)
    (hlast : history.getLast? = some t)
    (hrel : store.similarity_search t.content 10 = Except.ok rel)
    (hall : store.similarity_search "course prerequisites offered" 50 = Except.ok all)
    (hllm : ∀ msgs, llm msgs = Except.error e) :
    (get_advisor_response llm store sys history).response = pyDiagnostic e ∧
    (get_advisor_response llm store sys history).response ≠ "" ∧
    (get_advisor_response llm store sys history).conversation_history = history := by
  rw [get_advisor_response_success llm store sys history t rel all hlast hrel hall, hllm]
  exact ⟨rfl, pyDiagnostic_ne_empty e, rfl⟩

/-- Witness for C7: a model that always fails with a timeout message. -/
theorem C7_model_failure_isolated_witness :
    (get_advisor_response (fun _ => Except.error "timed out")
        ⟨fun _ _ => Except.ok []⟩ "SYS" [⟨"user", "hi"⟩]).response =
      pyDiagnostic "timed out" ∧
    (get_advisor_response (fun _ => Except.error "timed out")
        ⟨fun _ _ => Except.ok []⟩ "SYS" [⟨"user", "hi"⟩]).response ≠ "" ∧
    (get_advisor_response (fun _ => Except.error "timed out")
        ⟨fun _ _ => Except.ok []⟩ "SYS" [⟨"user", "hi"⟩]).conversation_history =
      [⟨"user", "hi"⟩] :=
  C7_model_failure_isolated (fun _ => Except.error "timed out")
    ⟨fun _ _ => Except.ok []⟩ "SYS" [⟨"user", "hi"⟩] ⟨"user", "hi"⟩ [] [] "timed out"
    rfl rfl rfl (fun _ => rfl)

/-- C8: for every non-empty conversation whose turns carry the data model's
two roles, the dispatched message list is exactly the persona block first,
then every prior turn (all turns but the last) role-tagged in original
order, then one final user-role message whose content contains the
retrieved context followed by the literal latest question. -/
theorem C8_prompt_structure (sys : String) (history : List Turn) (context latest : String)
    (hroles : ∀ t ∈ history.dropLast, t.role = "user" ∨ t.role = "assistant") :
    build_messages sys history context latest =
      Message.system sys ::
        (history.dropLast.map (fun t =>
          if t.role = "user" then Message.human t.content else Message.ai t.content) ++
         [Message.human (augmented_question_of context latest)]) ∧
    augmented_question_of context latest =
      augmented_question_part1 ++ context ++ augmented_question_part2 ++
        latest ++ augmented_question_part3 := by
  constructor
  · unfold build_messages
    rw [history_messages_eq_map history.dropLast hroles]
    simp
  · rfl

/-- Witness for C8: a three-turn conversation. -/
theorem C8_prompt_structure_witness :
    build_messages "SYS" [⟨"user", "a"⟩, ⟨"assistant", "b"⟩, ⟨"user", "c"⟩] "CTX" "c" =
      Message.system "SYS" ::
        (([⟨"user", "a"⟩, ⟨"assistant", "b"⟩, ⟨"user", "c"⟩] : List Turn).dropLast.map (fun t =>
          if t.role = "user" then Message.human t.content else Message.ai t.content) ++
         [Message.human (augmented_question_of "CTX" "c")]) ∧
    augmented_question_of "CTX" "c" =
      augmented_question_part1 ++ "CTX" ++ augmented_question_part2 ++
        "c" ++ augmented_question_part3 :=
  C8_prompt_structure "SYS" [⟨"user", "a"⟩, ⟨"assistant", "b"⟩, ⟨"user", "c"⟩] "CTX" "c"
    (by decide)

/-- C9 counterexample: the orchestrator computes no first-turn flag.  A
first-turn conversation (zero prior turns) and a later-turn conversation
(two prior turns), asking the same question over the same context, receive
an identical persona message and an identical final user message — the only
difference in the dispatched prompt is the prior turns themselves, so no
"is this the first user turn" fact computed by the orchestrator is
communicated into the prompt; the first-message behaviour lives only in the
constant instruction text. -/
theorem C9_counterexample :
    ([⟨"user", "What is MATH302?"⟩] : List Turn).dropLast.length = 0 ∧
    ([⟨"user", "hi"⟩, ⟨"assistant", "hello"⟩, ⟨"user", "What is MATH302?"⟩] :
      List Turn).dropLast.length ≠ 0 ∧
    (build_messages build_system_prompt [⟨"user", "What is MATH302?"⟩]
        "CTX" "What is MATH302?").head? =
      (build_messages build_system_prompt
        [⟨"user", "hi"⟩, ⟨"assistant", "hello"⟩, ⟨"user", "What is MATH302?"⟩]
        "CTX" "What is MATH302?").head? ∧
    (build_messages build_system_prompt [⟨"user", "What is MATH302?"⟩]
        "CTX" "What is MATH302?").getLast? =
      (build_messages build_system_prompt
        [⟨"user", "hi"⟩, ⟨"assistant", "hello"⟩, ⟨"user", "What is MATH302?"⟩]
        "CTX" "What is MATH302?").getLast? := by
  refine ⟨rfl, by decide, rfl, ?_⟩
  unfold build_messages
  rw [List.getLast?_concat, List.getLast?_concat]

/-- C9 (amended): the orchestrator itself performs no first-turn
detection: `build_system_prompt` is a constant containing a FIRST MESSAGE
RULE that instructs the model to recognise the first turn as "only one user
message in the history", the persona message heading every dispatched
prompt is that same constant for every conversation, and the final
user-role message is the same for any two histories with the same latest
question — first-turn detection is delegated to the model reading the
included history. -/
theorem C9_first_turn_delegated :
    (∃ a b c, build_system_prompt =
      a ++ "FIRST MESSAGE RULE" ++ b ++ "only one user message in the history" ++ c) ∧
    (∀ (h1 h2 : List Turn) (ctx q : String),
      (build_messages build_system_prompt h1 ctx q).head? =
        some (Message.system build_system_prompt) ∧
      (build_messages build_system_prompt h1 ctx q).getLast? =
        (build_messages build_system_prompt h2 ctx q).getLast?) := by
  refine ⟨⟨system_prompt_part_a, system_prompt_part_b, system_prompt_part_c, rfl⟩, ?_⟩
  intro h1 h2 ctx q
  refine ⟨rfl, ?_⟩
  unfold build_messages
  rw [List.getLast?_concat, List.getLast?_concat]

/-- C10: `get_advisor_response` is total — a function into `CallResult` —
and on an empty conversation history the internal `conversation_history[-1]`
lookup raises `IndexError`, which the catch-all turns into the same generic
diagnostic template used for model failures (with "list index out of range"
interpolated), leaving the (empty) history unchanged; no error
distinguishing the bad input is raised. -/
theorem C10_empty_history_generic_diagnostic (llm : List Message → Except String String)
    (store : VectorStore) (sys : String) :
    (get_advisor_response llm store sys []).response =
      pyDiagnostic "list index out of range" ∧
    (get_advisor_response llm store sys []).conversation_history = [] :=
  ⟨rfl, rfl⟩
